import Mathlib

/-!
Shallow embedding of the flytekit typed data-marshalling engine:
the FlyteFile path transformer (src/flytekit/types/file/file.py) and the
StructuredDataset transformer with its pluggable handler registry
(src/flytekit/types/structured/structured_dataset.py).

Python exceptions are modelled by `PyErr`; storage-collaborator calls
(put_data / get_data / handler invocations) are recorded as explicit
event lists so that claims about the number and arguments of such calls
can be stated and proved.
-/

set_option autoImplicit false

/-- Python exception kinds raised by the embedded code. -/
inductive PyErr
  | assertionError
  | valueError
  | typeError
  | notImplementedError
  | attributeError
  | keyError
  deriving DecidableEq, Repr

/-- The storage collaborator (`ctx.file_access`) together with the local
filesystem view (`pathlib.Path(...).is_file()`).  `get_random_remote_path`
takes the optional hint argument of the Python method. -/
structure FileAccess where
  is_remote : String → Bool
  is_file : String → Bool
  get_random_remote_path : Option String → String
  get_random_local_path : String → String

/-- One `ctx.file_access.put_data(src, dst, is_multipart=False)` call. -/
structure PutCall where
  src : String
  dst : String
  deriving DecidableEq, Repr

namespace FlyteFile

/-- The Python `remote_path` argument of `FlyteFile.__init__`:
`None`, the literal `False`, or a string. -/
inductive RemotePathOpt
  | isNone
  | explicitFalse
  | path (s : String)
  deriving DecidableEq, Repr

/-- The `downloader` callable bound to a `FlyteFile`: either the module
level `noop`, or the closure built in `to_python_value` that calls
`ctx.file_access.get_data(uri, local_path, is_multipart=False)`. -/
inductive Downloader
  | noop
  | getData (uri localPath : String)
  deriving DecidableEq, Repr

end FlyteFile

/-- A `FlyteFile` instance.  `formatTag` is the `extension()` of the
instance's (possibly subscripted) class; the remaining fields are the
attributes set in `__init__` (plus `_remote_source`, assigned only by
the transformer's decode direction). -/
structure FlyteFileVal where
  path : String
  downloader : FlyteFile.Downloader
  downloaded : Bool
  remote_path : FlyteFile.RemotePathOpt
  remote_source : Option String
  formatTag : String
  deriving DecidableEq, Repr

namespace FlyteFile

/-- `FlyteFile.__init__`: `_downloaded` starts `False`, `_remote_source`
starts `None`. -/
def mk (fmt : String) (path : String) (downloader : Downloader)
    (remote_path : RemotePathOpt) : FlyteFileVal :=
  { path := path, downloader := downloader, downloaded := false,
    remote_path := remote_path, remote_source := none, formatTag := fmt }

/-- `FlyteFile.__fspath__`: returns `_path`; on the first call it invokes
`_downloader()` and sets `_downloaded = True`.  The `Nat` component counts
downloader invocations performed by this call. -/
def fspath (v : FlyteFileVal) : String × FlyteFileVal × Nat :=
  if v.downloaded then (v.path, v, 0)
  else (v.path, { v with downloaded := true }, 1)

/-- Dereference the path `n` times in sequence, collecting the final state,
the total number of downloader invocations, and every returned path. -/
def fspathIter : Nat → FlyteFileVal → FlyteFileVal × Nat × List String
  | 0, v => (v, 0, [])
  | n + 1, v =>
    let r := fspath v
    let rest := fspathIter n r.2.1
    (rest.1, r.2.2 + rest.2.1, r.1 :: rest.2.2)

end FlyteFile

/-- `BlobMetadata` for a single-dimensional blob; only the format string
varies (dimensionality is always `SINGLE`). -/
structure BlobMetadata where
  format : String
  deriving DecidableEq, Repr

/-- A `Literal(scalar=Scalar(blob=Blob(metadata, uri)))`. -/
structure BlobLiteral where
  metadata : BlobMetadata
  uri : String
  deriving DecidableEq, Repr

/-- The runtime Python value handed to `FlyteFilePathTransformer.to_literal`. -/
inductive FFPyVal
  | file (v : FlyteFileVal)
  | str (s : String)
  | plPath (s : String)
  | pyNone
  | other
  deriving DecidableEq, Repr

/-- The declared Python type handed to the FlyteFile transformer:
a `FlyteFile` subtype carrying its format tag, `pathlib.Path`,
`os.PathLike`, or anything else. -/
inductive FFDeclType
  | flyteFile (fmt : String)
  | plPathT
  | osPathLikeT
  | otherT
  deriving DecidableEq, Repr

namespace FlyteFilePathTransformer

/-- `FlyteFilePathTransformer.get_format(t) = t.extension()`.  Only
`FlyteFile` subtypes have the `extension` classmethod; on any other type
the attribute access raises `AttributeError`. -/
def get_format : FFDeclType → Except PyErr String
  | .flyteFile fmt => .ok fmt
  | _ => .error .attributeError

/-- Shared tail of `to_literal` (lines 304-312): upload if required, and
build the blob literal from the chosen uri. -/
def finishLiteral (ctx : FileAccess) (meta : BlobMetadata) (source_path : String)
    (should_upload : Bool) (remote_path : Option String) :
    BlobLiteral × List PutCall :=
  if should_upload then
    let dst := match remote_path with
      | some r => r
      | none => ctx.get_random_remote_path (some source_path)
    ({ metadata := meta, uri := dst }, [{ src := source_path, dst := dst }])
  else
    ({ metadata := meta, uri := source_path }, [])

/-- Whether the declared type is a "simpler" path type
(`issubclass(python_type, pathlib.Path) or python_type is os.PathLike`). -/
def isSimplerType : FFDeclType → Bool
  | .plPathT => true
  | .osPathLikeT => true
  | _ => false

/-- `FlyteFilePathTransformer.to_literal`.  Returns the produced literal
together with the list of `put_data` calls issued, or the raised error.
Every error is raised before any `put_data` call is made. -/
def to_literal (ctx : FileAccess) (python_val : FFPyVal) (python_type : FFDeclType) :
    Except PyErr (BlobLiteral × List PutCall) :=
  match python_val with
  | .pyNone => .error .assertionError
  | _ =>
    match get_format python_type with
    | .error e => .error e
    | .ok fmt =>
      let meta : BlobMetadata := { format := fmt }
      match python_val with
      | .pyNone => .error .assertionError
      | .other => .error .assertionError
      | .file v =>
        let source_path := v.path
        match v.remote_source with
        | some rs => .ok ({ metadata := meta, uri := rs }, [])
        | none =>
          let should_upload :=
            (match v.remote_path with
              | .explicitFalse => false
              | _ => !ctx.is_remote source_path) &&
            !isSimplerType python_type
          let remote_path : Option String :=
            match v.remote_path with
            | .path s => if s = "" then none else some s
            | _ => none
          .ok (finishLiteral ctx meta source_path should_upload remote_path)
      | .str s =>
        if ctx.is_file s then
          let should_upload := !ctx.is_remote s && !isSimplerType python_type
          .ok (finishLiteral ctx meta s should_upload none)
        else .error .valueError
      | .plPath s =>
        if ctx.is_file s then
          let should_upload := !ctx.is_remote s && !isSimplerType python_type
          .ok (finishLiteral ctx meta s should_upload none)
        else .error .valueError

end FlyteFilePathTransformer

/-- The value returned by `FlyteFilePathTransformer.to_python_value`:
either a plain path-type instance constructed from the uri, or a
`FlyteFile` instance. -/
inductive FFDecodeResult
  | simplePath (t : FFDeclType) (uri : String)
  | file (v : FlyteFileVal)
  deriving DecidableEq, Repr

namespace FlyteFilePathTransformer

/-- `FlyteFilePathTransformer.to_python_value`. -/
def to_python_value (ctx : FileAccess) (lv : BlobLiteral) (expected_python_type : FFDeclType) :
    Except PyErr FFDecodeResult :=
  let uri := lv.uri
  match expected_python_type with
  | .plPathT => .ok (.simplePath .plPathT uri)
  | .osPathLikeT => .ok (.simplePath .osPathLikeT uri)
  | .otherT => .error .typeError
  | .flyteFile fmt =>
    if ctx.is_remote uri then
      let local_path := ctx.get_random_local_path uri
      .ok (.file { path := local_path,
                   downloader := .getData uri local_path,
                   downloaded := false,
                   remote_path := .isNone,
                   remote_source := some uri,
                   formatTag := fmt })
    else
      .ok (.file (FlyteFile.mk fmt uri .noop .isNone))

end FlyteFilePathTransformer

/-! ## StructuredDataset transformer -/

/-- The `DatasetFormat` enum. -/
inductive DatasetFormat
  | parquet
  | bigquery
  deriving DecidableEq, Repr

/-- `DatasetFormat.name` as used for the literal metadata
(`format=file_format.name`). -/
def DatasetFormat.enumName : DatasetFormat → String
  | .parquet => "PARQUET"
  | .bigquery => "BIGQUERY"

/-- Keys of the handler registries: a `DatasetFormat` member, the
intermediate `pa.Table` type, `pd.DataFrame`, or any other Python type. -/
inductive TKey
  | fmt (f : DatasetFormat)
  | paTable
  | pandasDF
  | custom (n : Nat)
  deriving DecidableEq, Repr

/-- The six canonical semantic column types together with the extra
numpy/pyarrow keys of `_SUPPORTED_TYPES` and the generic `List`/`Dict`
type constructors; `otherT` is any Python type outside the table. -/
inductive PyType
  | pyInt
  | pyFloat
  | pyStr
  | pyBool
  | pyDatetime
  | pyTimedelta
  | npInt32
  | npInt64
  | npFloat64
  | npBool
  | npStr
  | listOf (e : PyType)
  | dictOf (k v : PyType)
  | otherT
  deriving DecidableEq, Repr

/-- The fixed enumeration of simple scalar literal kinds. -/
inductive SimpleT
  | integer
  | float
  | string
  | boolean
  | datetime
  | duration
  deriving DecidableEq, Repr

/-- Literal type descriptors for structured-dataset columns. -/
inductive LType
  | simple (s : SimpleT)
  | collection (e : LType)
  | mapValue (v : LType)
  deriving DecidableEq, Repr

/-- Whether a column literal type is a simple scalar kind. -/
def LType.isSimple : LType → Bool
  | .simple _ => true
  | _ => false

/-- A declared column schema: the ordered dict attached to
`StructuredDataset[columns]` (plain `StructuredDataset` has `{}` = `[]`). -/
abbrev Columns := List (String × PyType)

/-- The `LiteralType` wrapper as far as the structured-dataset code
inspects it. -/
inductive FlyteLiteralType
  | blob (format : String)
  | structuredDatasetType (cols : List (String × LType))
  deriving DecidableEq, Repr

namespace StructuredDatasetTransformer

/-- The `_SUPPORTED_TYPES` table (keys present in the dict map to their
simple literal type; `none` means the type is not a key of the dict). -/
def supportedType : PyType → Option LType
  | .pyInt => some (.simple .integer)
  | .npInt32 => some (.simple .integer)
  | .npInt64 => some (.simple .integer)
  | .pyFloat => some (.simple .float)
  | .npFloat64 => some (.simple .float)
  | .pyStr => some (.simple .string)
  | .npStr => some (.simple .string)
  | .pyBool => some (.simple .boolean)
  | .npBool => some (.simple .boolean)
  | .pyDatetime => some (.simple .datetime)
  | .pyTimedelta => some (.simple .duration)
  | _ => none

/-- `_get_dataset_column_literal_type`: table lookup first, then the
`List`/`Dict` origins recursing on the element/value type, else
`AssertionError`. -/
def _get_dataset_column_literal_type : PyType → Except PyErr LType
  | .listOf e => (_get_dataset_column_literal_type e).map .collection
  | .dictOf _ v => (_get_dataset_column_literal_type v).map .mapValue
  | t =>
    match supportedType t with
    | some lt => .ok lt
    | none => .error .assertionError

/-- `_get_dataset_type`: convert a declared column schema to the list of
`(name, literalType)` dataset columns, in order, propagating the first
conversion error. -/
def _get_dataset_type : Columns → Except PyErr (List (String × LType))
  | [] => .ok []
  | (k, t) :: rest =>
    match _get_dataset_column_literal_type t with
    | .error e => .error e
    | .ok lt =>
      match _get_dataset_type rest with
      | .error e => .error e
      | .ok ls => .ok ((k, lt) :: ls)

/-- `get_literal_type`: wrap the dataset columns in a `LiteralType`. -/
def get_literal_type (cols : Columns) : Except PyErr FlyteLiteralType :=
  (_get_dataset_type cols).map .structuredDatasetType

/-- The inverse table of `guess_python_type` for one column literal type
(the `elif` chain over the six simple kinds; anything else raises
`ValueError`). -/
def guessColumn : LType → Except PyErr PyType
  | .simple .integer => .ok .pyInt
  | .simple .float => .ok .pyFloat
  | .simple .string => .ok .pyStr
  | .simple .datetime => .ok .pyDatetime
  | .simple .duration => .ok .pyTimedelta
  | .simple .boolean => .ok .pyBool
  | _ => .error .valueError

/-- Python dict assignment `m[k] = v`: update the value in place if the
key exists, else append the new entry. -/
def dictInsert (m : Columns) (k : String) (v : PyType) : Columns :=
  match m with
  | [] => [(k, v)]
  | (k0, v0) :: rest =>
    if k0 = k then (k0, v) :: rest else (k0, v0) :: dictInsert rest k v

/-- The loop of `guess_python_type` building the `columns` dict. -/
def guessCols : List (String × LType) → Columns → Except PyErr Columns
  | [], acc => .ok acc
  | (n, lt) :: rest, acc =>
    match guessColumn lt with
    | .error e => .error e
    | .ok t => guessCols rest (dictInsert acc n t)

/-- `guess_python_type`: requires a structured-dataset literal type, then
maps every column back through the inverse table, producing the column
schema of the resulting `StructuredDataset[columns]` type. -/
def guess_python_type : FlyteLiteralType → Except PyErr Columns
  | .structuredDatasetType cols => guessCols cols []
  | _ => .error .valueError

end StructuredDatasetTransformer

/-- A retrieval handler: `retrieve(path)` producing a value (values of
the opaque dataframe universe are modelled as `Nat`).  `hid` identifies
the handler instance in the recorded call events. -/
structure DatasetRetrievalHandler where
  hid : Nat
  retrieve : String → Nat

/-- A decoding handler: `decode(table)` producing a value. -/
structure DatasetDecodingHandler where
  hid : Nat
  decode : Nat → Nat

/-- An encoding handler: `encode(df)` producing an intermediate value. -/
structure DatasetEncodingHandler where
  hid : Nat
  encode : Nat → Nat

/-- A persistence handler: `persist(df, uri)`, effect only. -/
structure DatasetPersistenceHandler where
  hid : Nat

/-- The runtime classification of a handler passed to `register_handler`
(the `isinstance` chain); `other` is an object implementing none of the
four capability interfaces. -/
inductive Handler
  | retrieval (h : DatasetRetrievalHandler)
  | persistence (h : DatasetPersistenceHandler)
  | encoding (h : DatasetEncodingHandler)
  | decoding (h : DatasetDecodingHandler)
  | other

/-- Calls made to handlers and to the storage collaborator during
structured-dataset encode/decode. -/
inductive SDCall
  | retrieveCall (hid : Nat) (uri : String)
  | decodeCall (hid : Nat) (v : Nat)
  | encodeCall (hid : Nat) (v : Nat)
  | persistCall (hid : Nat) (v : Nat) (uri : String)
  | putDataCall (src dst : String)
  deriving DecidableEq, Repr

/-- A two-level handler registry `Dict[Type, Dict[Type, H]]`, modelled as
nested association lists with Python-dict update semantics. -/
abbrev Registry (H : Type) := List (TKey × List (TKey × H))

/-- Association-list lookup (`d[k]` if present). -/
def alookup {H : Type} : List (TKey × H) → TKey → Option H
  | [], _ => none
  | (k0, h) :: rest, k => if k0 = k then some h else alookup rest k

/-- Association-list assignment `d[k] = v`. -/
def aupdate {H : Type} : List (TKey × H) → TKey → H → List (TKey × H)
  | [], k, v => [(k, v)]
  | (k0, v0) :: rest, k, v =>
    if k0 = k then (k0, v) :: rest else (k0, v0) :: aupdate rest k v

namespace StructuredDatasetTransformer

/-- `_get_handler`: `None` unless both levels of the registry contain the
key. -/
def _get_handler {H : Type} (from_type to_type : TKey) (reg : Registry H) : Option H :=
  match alookup reg from_type with
  | none => none
  | some inner => alookup inner to_type

/-- `registry[from_type] = {}` if absent, then
`registry[from_type][to_type] = h`. -/
def registryInsert {H : Type} (reg : Registry H) (from_type to_type : TKey) (h : H) :
    Registry H :=
  let reg := match alookup reg from_type with
    | none => aupdate reg from_type []
    | some _ => reg
  match alookup reg from_type with
  | none => reg
  | some inner => aupdate reg from_type (aupdate inner to_type h)

/-- The mutable class-level state of the transformer: the four handler
registries, the `_REGISTER_TYPES` seen-types list, and the sequence of
`TypeEngine.override_transformer` calls issued to the outer dispatcher. -/
structure SDState where
  registerTypes : List TKey
  overrideCalls : List TKey
  retrieval : Registry DatasetRetrievalHandler
  persistence : Registry DatasetPersistenceHandler
  encoding : Registry DatasetEncodingHandler
  decoding : Registry DatasetDecodingHandler

/-- The `if t not in self._REGISTER_TYPES` block of `register_handler`:
record the type and override the outer dispatcher, once per type. -/
def registerType (s : SDState) (t : TKey) : SDState :=
  if t ∈ s.registerTypes then s
  else { s with registerTypes := s.registerTypes ++ [t],
                overrideCalls := s.overrideCalls ++ [t] }

/-- `register_handler`: the seen-type side effects run first for
`from_type` then `to_type`; then the handler is classified and inserted,
or `TypeError` is raised.  The returned state reflects all mutations made
before the error (Python does not roll them back). -/
def register_handler (from_type to_type : TKey) (h : Handler) (s : SDState) :
    Except PyErr Unit × SDState :=
  let s := registerType s from_type
  let s := registerType s to_type
  match h with
  | .retrieval rh =>
    (.ok (), { s with retrieval := registryInsert s.retrieval from_type to_type rh })
  | .persistence ph =>
    (.ok (), { s with persistence := registryInsert s.persistence from_type to_type ph })
  | .encoding eh =>
    (.ok (), { s with encoding := registryInsert s.encoding from_type to_type eh })
  | .decoding dh =>
    (.ok (), { s with decoding := registryInsert s.decoding from_type to_type dh })
  | .other => (.error .typeError, s)

/-- `_get_intermediate_format()` is `pa.Table`. -/
def intermediateFormat : TKey := .paTable

/-- `download`: direct retrieval handler, else retrieval-into-intermediate
plus decoding, else `ValueError` ("not yet implemented download"). -/
def download (s : SDState) (from_type to_type : TKey) (uri : String) :
    Except PyErr (Nat × List SDCall) :=
  match _get_handler from_type to_type s.retrieval with
  | some h => .ok (h.retrieve uri, [.retrieveCall h.hid uri])
  | none =>
    match _get_handler from_type intermediateFormat s.retrieval,
          _get_handler intermediateFormat to_type s.decoding with
    | some rh, some dh =>
      let table := rh.retrieve uri
      .ok (dh.decode table, [.retrieveCall rh.hid uri, .decodeCall dh.hid table])
    | _, _ => .error .valueError

/-- `upload`: direct persistence handler, else encoding-to-intermediate
plus persistence, else `NotImplementedError`. -/
def upload (s : SDState) (from_type to_type : TKey) (uri : String) (df : Nat) :
    Except PyErr (List SDCall) :=
  match _get_handler from_type to_type s.persistence with
  | some h => .ok [.persistCall h.hid df uri]
  | none =>
    match _get_handler from_type intermediateFormat s.encoding,
          _get_handler intermediateFormat to_type s.persistence with
    | some eh, some ph =>
      let table := eh.encode df
      .ok [.encodeCall eh.hid df, .persistCall ph.hid table uri]
    | _, _ => .error .notImplementedError

end StructuredDatasetTransformer

/-- A `StructuredDataset` instance as consumed by `to_literal`.
`dataframe` carries the Python type of the wrapped dataframe (the
registry key `type(df)`) together with its value; `cols` is the column
schema of the instance's class. -/
structure SDVal where
  dataframe : Option (TKey × Nat)
  local_path : Option String
  remote_path : Option String
  file_format : DatasetFormat
  cols : Columns

/-- The runtime value handed to `StructuredDatasetTransformer.to_literal`:
a `StructuredDataset` instance, or any other value, treated as a bare
dataframe of type `tkey` whose physical column schema (as enumerated by
pyarrow for the known tabular types, empty otherwise) is `schemaCols`. -/
inductive SDPyVal
  | sd (v : SDVal)
  | df (tkey : TKey) (value : Nat) (schemaCols : List (String × PyType))

/-- Python truthiness of an optional string (`None` and `""` are falsy). -/
def truthy : Option String → Bool
  | some s => s ≠ ""
  | none => false

/-- The structured-dataset literal
`Literal(scalar=Scalar(structured_dataset=...))`. -/
structure SDLiteral where
  uri : String
  format : String
  dsType : List (String × LType)
  deriving DecidableEq, Repr

namespace StructuredDatasetTransformer

/-- The physical-schema lookup of `_get_dataset_type_from_value`:
`self._SUPPORTED_TYPES[s.type]` for each enumerated column. -/
def schemaLookup : List (String × PyType) → Except PyErr (List (String × LType))
  | [] => .ok []
  | (k, t) :: rest =>
    match supportedType t with
    | some lt =>
      match schemaLookup rest with
      | .error e => .error e
      | .ok ls => .ok ((k, lt) :: ls)
    | none => .error .keyError

/-- `_get_dataset_type_from_value`: declared schema for a
`StructuredDataset` value, physical-schema lookup in `_SUPPORTED_TYPES`
(raising `KeyError` on a miss) for a bare tabular value. -/
def _get_dataset_type_from_value : SDPyVal → Except PyErr (List (String × LType))
  | .sd v => _get_dataset_type v.cols
  | .df _ _ schemaCols => schemaLookup schemaCols

/-- `to_literal`.  Returns the outcome together with the handler/storage
calls that were issued before returning or raising. -/
def to_literal (ctx : FileAccess) (s : SDState) (python_val : SDPyVal) :
    Except PyErr SDLiteral × List SDCall :=
  match python_val with
  | .sd v =>
    let uri := if truthy v.remote_path then v.remote_path.getD ""
               else ctx.get_random_remote_path none
    let effects : Except PyErr (List SDCall) :=
      if truthy v.local_path then
        .ok [.putDataCall (v.local_path.getD "") uri]
      else
        match v.dataframe with
        | some (tk, df) => upload s tk (.fmt v.file_format) uri df
        | none => .ok []
    match effects with
    | .error e => (.error e, [])
    | .ok calls =>
      match _get_dataset_type_from_value python_val with
      | .error e => (.error e, calls)
      | .ok dst =>
        (.ok { uri := uri, format := v.file_format.enumName, dsType := dst }, calls)
  | .df tk df _ =>
    let uri := ctx.get_random_remote_path none
    match upload s tk (.fmt .parquet) uri df with
    | .error e => (.error e, [])
    | .ok calls =>
      match _get_dataset_type_from_value python_val with
      | .error e => (.error e, calls)
      | .ok dst =>
        (.ok { uri := uri, format := DatasetFormat.parquet.enumName, dsType := dst }, calls)

end StructuredDatasetTransformer

/-! ## Concrete collaborators used by the witnesses -/

/-- Computable string-prefix test (on the underlying character lists so
that concrete instances evaluate inside the kernel). -/
def strHasPrefix (pre s : String) : Bool :=
  pre.data.isPrefixOf s.data

/-- The resolver contract of the spec: a path is remote iff it starts
with an object-store scheme, `http(s)://`, or `file://`. -/
def specIsRemote (path : String) : Bool :=
  strHasPrefix "s3://" path || strHasPrefix "gs://" path ||
  strHasPrefix "http://" path || strHasPrefix "https://" path ||
  strHasPrefix "file://" path

/-- A concrete storage collaborator where every local path names an
existing file. -/
def ctxW : FileAccess :=
  { is_remote := specIsRemote,
    is_file := fun _ => true,
    get_random_remote_path := fun hint => "s3://sandbox/random/" ++ hint.getD "x",
    get_random_local_path := fun uri => "/tmp/flyte/" ++ uri }

/-- A concrete storage collaborator whose filesystem is empty. -/
def ctxEmptyFS : FileAccess :=
  { is_remote := specIsRemote,
    is_file := fun _ => false,
    get_random_remote_path := fun hint => "s3://sandbox/random/" ++ hint.getD "x",
    get_random_local_path := fun uri => "/tmp/flyte/" ++ uri }

/-! ## C1 -/

/-- C1: the claim says that encoding a plain remote URI string with
declared type FlyteFile returns a Blob literal carrying the uri verbatim
with no putData call.  The code instead raises ValueError: the
existing-regular-file check on the string runs before the remoteness
check, so a remote URI string (which names no local file) never reaches
the skip-upload path.  This theorem evaluates the code at the failing
input: the path is classified remote by the resolver, yet to_literal
fails instead of returning the uri. -/
theorem c1_remote_string_to_literal_raises :
    ctxEmptyFS.is_remote "s3://bucket/key" = true ∧
    FlyteFilePathTransformer.to_literal ctxEmptyFS (.str "s3://bucket/key")
        (.flyteFile "") = .error .valueError := by
  exact ⟨by decide, rfl⟩

/-! ## C3 -/

/-- C3: for every FlyteFile value whose remote_source is set (non-None),
to_literal with a declared FlyteFile type short-circuits: it returns a
Blob literal whose uri is exactly the remote source and issues no
put_data call, for every storage collaborator and regardless of the
value's path, remote_path or downloader (the upload/skip decision logic
is never reached). -/
theorem c3_remote_source_short_circuit (ctx : FileAccess) (v : FlyteFileVal)
    (fmt rs : String) (h : v.remote_source = some rs) :
    FlyteFilePathTransformer.to_literal ctx (.file v) (.flyteFile fmt) =
      .ok ({ metadata := { format := fmt }, uri := rs }, []) := by
  simp [FlyteFilePathTransformer.to_literal, FlyteFilePathTransformer.get_format, h]

/-- Witness for C3 at a concrete value and collaborator. -/
theorem c3_witness :
    FlyteFilePathTransformer.to_literal ctxW
      (.file { path := "/tmp/f.csv", downloader := .noop, downloaded := false,
               remote_path := .path "s3://elsewhere/z", remote_source := some "s3://b/k",
               formatTag := "csv" })
      (.flyteFile "csv") =
      .ok ({ metadata := { format := "csv" }, uri := "s3://b/k" }, []) :=
  c3_remote_source_short_circuit ctxW _ "csv" "s3://b/k" rfl

/-! ## C9 -/

/-- C9: for every path naming an existing local (non-remote) regular
file, encoding it as a string with declared type FlyteFile produces a
Blob literal whose uri is the freshly minted remote path returned by the
resolver, and exactly one put_data call copying the path to that uri is
issued. -/
theorem c9_local_string_uploads (ctx : FileAccess) (p fmt : String)
    (hfile : ctx.is_file p = true) (hrem : ctx.is_remote p = false) :
    FlyteFilePathTransformer.to_literal ctx (.str p) (.flyteFile fmt) =
      .ok ({ metadata := { format := fmt },
             uri := ctx.get_random_remote_path (some p) },
           [{ src := p, dst := ctx.get_random_remote_path (some p) }]) := by
  simp [FlyteFilePathTransformer.to_literal, FlyteFilePathTransformer.get_format,
        FlyteFilePathTransformer.finishLiteral, FlyteFilePathTransformer.isSimplerType,
        hfile, hrem]

/-- Witness for C9 at a concrete local file. -/
theorem c9_witness :
    FlyteFilePathTransformer.to_literal ctxW (.str "/home/user/data.csv")
        (.flyteFile "csv") =
      .ok ({ metadata := { format := "csv" },
             uri := "s3://sandbox/random//home/user/data.csv" },
           [{ src := "/home/user/data.csv",
              dst := "s3://sandbox/random//home/user/data.csv" }]) :=
  c9_local_string_uploads ctxW "/home/user/data.csv" "csv" rfl (by decide)

/-! ## C5 -/

/-- C5: decoding a Blob literal with a remote uri at an expected
FlyteFile subtype yields a FlyteFile whose path is the freshly minted
local path, whose remote_source equals the literal uri, whose downloaded
flag is false, whose bound download action copies the uri to the local
path via the storage collaborator, and whose format tag comes from the
expected type. -/
theorem c5_decode_remote_literal (ctx : FileAccess) (lv : BlobLiteral) (fmt : String)
    (h : ctx.is_remote lv.uri = true) :
    FlyteFilePathTransformer.to_python_value ctx lv (.flyteFile fmt) =
      .ok (.file { path := ctx.get_random_local_path lv.uri,
                   downloader := .getData lv.uri (ctx.get_random_local_path lv.uri),
                   downloaded := false,
                   remote_path := .isNone,
                   remote_source := some lv.uri,
                   formatTag := fmt }) := by
  simp [FlyteFilePathTransformer.to_python_value, h]

/-- Witness for C5 at the Blob literal of the spec example. -/
theorem c5_witness :
    FlyteFilePathTransformer.to_python_value ctxW
        { metadata := { format := "csv" }, uri := "s3://b/k" } (.flyteFile "csv") =
      .ok (.file { path := "/tmp/flyte/s3://b/k",
                   downloader := .getData "s3://b/k" "/tmp/flyte/s3://b/k",
                   downloaded := false,
                   remote_path := .isNone,
                   remote_source := some "s3://b/k",
                   formatTag := "csv" }) :=
  c5_decode_remote_literal ctxW { metadata := { format := "csv" }, uri := "s3://b/k" }
    "csv" (by decide)

/-! ## C6 -/

/-- Once the flag is set, further dereferences invoke nothing, flip
nothing, and keep returning the same path. -/
theorem fspathIter_downloaded (v : FlyteFileVal) (hv : v.downloaded = true) :
    ∀ n : Nat, FlyteFile.fspathIter n v = (v, 0, List.replicate n v.path)
  | 0 => by simp [FlyteFile.fspathIter]
  | n + 1 => by
    simp [FlyteFile.fspathIter, FlyteFile.fspath, hv,
          fspathIter_downloaded v hv n, List.replicate]

/-- C6: dereferencing the filesystem path of a FlyteFile any positive
number of times invokes the bound download action exactly once (on the
first dereference), flips the downloaded flag from false to true exactly
once, and every dereference returns the same path. -/
theorem c6_fspath_downloads_once (v : FlyteFileVal) (n : Nat)
    (hd : v.downloaded = false) (hn : 1 ≤ n) :
    (FlyteFile.fspathIter n v).2.1 = 1 ∧
    (FlyteFile.fspathIter n v).2.2 = List.replicate n v.path ∧
    (FlyteFile.fspathIter n v).1 = { v with downloaded := true } := by
  obtain ⟨m, rfl⟩ : ∃ m, n = m + 1 := ⟨n - 1, by omega⟩
  have hstep : FlyteFile.fspath v = (v.path, { v with downloaded := true }, 1) := by
    simp [FlyteFile.fspath, hd]
  have hrest := fspathIter_downloaded { v with downloaded := true } rfl m
  simp [FlyteFile.fspathIter, hstep, hrest, List.replicate]

/-- A freshly decoded remote FlyteFile value used by the C6 witness. -/
def ffWitnessVal : FlyteFileVal :=
  { path := "/tmp/flyte/s3://b/k",
    downloader := .getData "s3://b/k" "/tmp/flyte/s3://b/k",
    downloaded := false,
    remote_path := .isNone,
    remote_source := some "s3://b/k",
    formatTag := "csv" }

/-- Witness for C6: three dereferences of a freshly decoded value. -/
theorem c6_witness :
    (FlyteFile.fspathIter 3 ffWitnessVal).2.1 = 1 ∧
    (FlyteFile.fspathIter 3 ffWitnessVal).2.2 = List.replicate 3 ffWitnessVal.path ∧
    (FlyteFile.fspathIter 3 ffWitnessVal).1 = { ffWitnessVal with downloaded := true } :=
  c6_fspath_downloads_once ffWitnessVal 3 rfl (by decide)

/-! ## C2 -/

/-- The transformer state with empty registries and no seen types. -/
def sdStateEmpty : StructuredDatasetTransformer.SDState :=
  { registerTypes := [], overrideCalls := [],
    retrieval := [], persistence := [], encoding := [], decoding := [] }

/-- C2 counterexample: the claim says that when both the in-memory
payload and the local path are absent, to_literal fails.  At this
concrete input (no dataframe, no local path) to_literal instead returns
a literal pointing at the remote path, issuing no calls at all. -/
theorem c2_counterexample :
    StructuredDatasetTransformer.to_literal ctxW sdStateEmpty
      (.sd { dataframe := none, local_path := none,
             remote_path := some "s3://bucket/out",
             file_format := .parquet, cols := [] }) =
      (.ok { uri := "s3://bucket/out", format := "PARQUET", dsType := [] }, []) := by
  rfl

/-- C2 amended: when both the in-memory payload and the local path are
absent, to_literal does not fail; it returns a structured-dataset
literal whose uri is the explicit remote path (or a freshly minted one)
and issues no handler or storage calls, provided the column descriptor
of the value's class converts. -/
theorem c2_amended_encode_succeeds (ctx : FileAccess)
    (s : StructuredDatasetTransformer.SDState) (v : SDVal)
    (hdf : v.dataframe = none) (hlp : truthy v.local_path = false)
    (dst : List (String × LType))
    (hcols : StructuredDatasetTransformer._get_dataset_type v.cols = .ok dst) :
    StructuredDatasetTransformer.to_literal ctx s (.sd v) =
      (.ok { uri := if truthy v.remote_path then v.remote_path.getD ""
                    else ctx.get_random_remote_path none,
             format := v.file_format.enumName, dsType := dst }, []) := by
  simp [StructuredDatasetTransformer.to_literal,
        StructuredDatasetTransformer._get_dataset_type_from_value, hdf, hlp, hcols]

/-- Witness for the amended C2 at a concrete value with no remote path
(the uri is freshly minted). -/
theorem c2_amended_witness :
    StructuredDatasetTransformer.to_literal ctxW sdStateEmpty
      (.sd { dataframe := none, local_path := none, remote_path := none,
             file_format := .bigquery, cols := [("a", .pyInt)] }) =
      (.ok { uri := "s3://sandbox/random/x", format := "BIGQUERY",
             dsType := [("a", .simple .integer)] }, []) :=
  c2_amended_encode_succeeds ctxW sdStateEmpty
    { dataframe := none, local_path := none, remote_path := none,
      file_format := .bigquery, cols := [("a", .pyInt)] }
    rfl rfl [("a", .simple .integer)] rfl

/-! ## C4 -/

/-- C4: download dispatch.  If a direct retrieval handler is registered
for the pair, it is invoked exactly once with the uri and its result is
returned unchanged; otherwise, if a retrieval handler into the
intermediate format and a decoding handler out of it are both
registered, the value is retrieved then decoded; otherwise, and only
then, the operation fails (Unsupported, raised as ValueError). -/
theorem c4_download_dispatch (s : StructuredDatasetTransformer.SDState)
    (ft tt : TKey) (uri : String) :
    (∀ h, StructuredDatasetTransformer._get_handler ft tt s.retrieval = some h →
      StructuredDatasetTransformer.download s ft tt uri =
        .ok (h.retrieve uri, [.retrieveCall h.hid uri])) ∧
    (StructuredDatasetTransformer._get_handler ft tt s.retrieval = none →
      ∀ rh dh,
        StructuredDatasetTransformer._get_handler ft
          StructuredDatasetTransformer.intermediateFormat s.retrieval = some rh →
        StructuredDatasetTransformer._get_handler
          StructuredDatasetTransformer.intermediateFormat tt s.decoding = some dh →
        StructuredDatasetTransformer.download s ft tt uri =
          .ok (dh.decode (rh.retrieve uri),
               [.retrieveCall rh.hid uri, .decodeCall dh.hid (rh.retrieve uri)])) ∧
    (StructuredDatasetTransformer._get_handler ft tt s.retrieval = none →
      (StructuredDatasetTransformer._get_handler ft
          StructuredDatasetTransformer.intermediateFormat s.retrieval = none ∨
       StructuredDatasetTransformer._get_handler
          StructuredDatasetTransformer.intermediateFormat tt s.decoding = none) →
      StructuredDatasetTransformer.download s ft tt uri = .error .valueError) := by
  refine ⟨?_, ?_, ?_⟩
  · intro h hh
    simp [StructuredDatasetTransformer.download, hh]
  · intro h0 rh dh h1 h2
    simp [StructuredDatasetTransformer.download, h0, h1, h2]
  · intro h0 hor
    rcases hor with h1 | h2
    · simp [StructuredDatasetTransformer.download, h0, h1]
    · cases hx : StructuredDatasetTransformer._get_handler ft
          StructuredDatasetTransformer.intermediateFormat s.retrieval <;>
        simp [StructuredDatasetTransformer.download, h0, h2, hx]

/-- A concrete retrieval handler used by witnesses. -/
def rhW : DatasetRetrievalHandler := { hid := 1, retrieve := fun _ => 7 }

/-- A concrete transformer state with one direct retrieval handler for
`(PARQUET, pd.DataFrame)`. -/
def sdStateW : StructuredDatasetTransformer.SDState :=
  { registerTypes := [], overrideCalls := [],
    retrieval := [(.fmt .parquet, [(.pandasDF, rhW)])],
    persistence := [], encoding := [], decoding := [] }

/-- Witness for C4 on the direct-handler path. -/
theorem c4_witness :
    StructuredDatasetTransformer.download sdStateW (.fmt .parquet) .pandasDF
        "s3://d/x" = .ok (7, [.retrieveCall 1 "s3://d/x"]) :=
  (c4_download_dispatch sdStateW (.fmt .parquet) .pandasDF "s3://d/x").1 rhW rfl

/-! ## C7 and C10: seen-type side effects of register_handler -/

namespace StructuredDatasetTransformer

/-- A type already seen leaves the state untouched. -/
theorem registerType_of_mem (s : SDState) (t : TKey) (h : t ∈ s.registerTypes) :
    registerType s t = s := by
  unfold registerType
  rw [if_pos h]

/-- A new type is appended to the seen-types list and one dispatcher
override call is issued for it. -/
theorem registerType_of_not_mem (s : SDState) (t : TKey) (h : t ∉ s.registerTypes) :
    registerType s t =
      { s with registerTypes := s.registerTypes ++ [t],
               overrideCalls := s.overrideCalls ++ [t] } := by
  unfold registerType
  rw [if_neg h]

/-- Membership in the seen-types list after one registration step. -/
theorem registerType_mem_iff (s : SDState) (t u : TKey) :
    u ∈ (registerType s t).registerTypes ↔ u = t ∨ u ∈ s.registerTypes := by
  by_cases h : t ∈ s.registerTypes
  · rw [registerType_of_mem s t h]
    constructor
    · exact Or.inr
    · rintro (rfl | hu)
      · exact h
      · exact hu
  · rw [registerType_of_not_mem s t h]
    simp only [List.mem_append, List.mem_singleton]
    tauto

/-- Override calls are monotone under a registration step. -/
theorem registerType_overrideCalls_mono (s : SDState) (t u : TKey)
    (h : u ∈ s.overrideCalls) : u ∈ (registerType s t).overrideCalls := by
  by_cases ht : t ∈ s.registerTypes
  · rw [registerType_of_mem s t ht]; exact h
  · rw [registerType_of_not_mem s t ht]
    exact List.mem_append_left _ h

/-- A previously unseen type gets its override call. -/
theorem registerType_overrideCalls_new (s : SDState) (t : TKey)
    (h : t ∉ s.registerTypes) : t ∈ (registerType s t).overrideCalls := by
  rw [registerType_of_not_mem s t h]
  exact List.mem_append_right _ (List.mem_singleton.mpr rfl)

/-- The seen-types list stays duplicate-free. -/
theorem registerType_nodup (s : SDState) (t : TKey)
    (h : s.registerTypes.Nodup) : (registerType s t).registerTypes.Nodup := by
  by_cases ht : t ∈ s.registerTypes
  · rw [registerType_of_mem s t ht]; exact h
  · rw [registerType_of_not_mem s t ht]
    simp [List.nodup_append, h, List.disjoint_singleton, ht]

/-- The override-call log tracks the seen-types list exactly. -/
theorem registerType_overrides_track (s : SDState) (t : TKey)
    (h : s.overrideCalls = s.registerTypes) :
    (registerType s t).overrideCalls = (registerType s t).registerTypes := by
  by_cases ht : t ∈ s.registerTypes
  · rw [registerType_of_mem s t ht]; exact h
  · rw [registerType_of_not_mem s t ht]
    simp [h]

/-- The seen-type side effect never touches the four handler registries. -/
theorem registerType_registries (s : SDState) (t : TKey) :
    (registerType s t).retrieval = s.retrieval ∧
    (registerType s t).persistence = s.persistence ∧
    (registerType s t).encoding = s.encoding ∧
    (registerType s t).decoding = s.decoding := by
  unfold registerType
  split <;> exact ⟨rfl, rfl, rfl, rfl⟩

/-- The handler classification and registry insertion never touch the
seen-types list or the override log. -/
theorem register_handler_seen_state (ft tt : TKey) (h : Handler) (s : SDState) :
    ((register_handler ft tt h s).2).registerTypes =
      (registerType (registerType s ft) tt).registerTypes ∧
    ((register_handler ft tt h s).2).overrideCalls =
      (registerType (registerType s ft) tt).overrideCalls := by
  cases h <;> exact ⟨rfl, rfl⟩

end StructuredDatasetTransformer

/-- C7: registering any handler makes both key types seen and routed to
this transformer in the outer dispatch system; for a type seen before
the call, neither the seen-types list nor the override log changes (the
side effect happens at most once per type); duplicate-freeness of the
seen-types list and the exact correspondence between the override log
and the seen-types list are preserved. -/
theorem c7_register_handler_idempotent_routing
    (s : StructuredDatasetTransformer.SDState) (ft tt : TKey) (h : Handler) :
    (ft ∈ ((StructuredDatasetTransformer.register_handler ft tt h s).2).registerTypes ∧
     tt ∈ ((StructuredDatasetTransformer.register_handler ft tt h s).2).registerTypes) ∧
    (ft ∉ s.registerTypes →
      ft ∈ ((StructuredDatasetTransformer.register_handler ft tt h s).2).overrideCalls) ∧
    (tt ∉ s.registerTypes →
      tt ∈ ((StructuredDatasetTransformer.register_handler ft tt h s).2).overrideCalls) ∧
    (ft ∈ s.registerTypes → tt ∈ s.registerTypes →
      ((StructuredDatasetTransformer.register_handler ft tt h s).2).registerTypes =
        s.registerTypes ∧
      ((StructuredDatasetTransformer.register_handler ft tt h s).2).overrideCalls =
        s.overrideCalls) ∧
    (s.registerTypes.Nodup →
      ((StructuredDatasetTransformer.register_handler ft tt h s).2).registerTypes.Nodup) ∧
    (s.overrideCalls = s.registerTypes →
      ((StructuredDatasetTransformer.register_handler ft tt h s).2).overrideCalls =
        ((StructuredDatasetTransformer.register_handler ft tt h s).2).registerTypes) := by
  obtain ⟨hrt, hoc⟩ := StructuredDatasetTransformer.register_handler_seen_state ft tt h s
  refine ⟨⟨?_, ?_⟩, ?_, ?_, ?_, ?_, ?_⟩
  · rw [hrt, StructuredDatasetTransformer.registerType_mem_iff,
        StructuredDatasetTransformer.registerType_mem_iff]
    tauto
  · rw [hrt, StructuredDatasetTransformer.registerType_mem_iff]
    tauto
  · intro hft
    rw [hoc]
    exact StructuredDatasetTransformer.registerType_overrideCalls_mono _ tt ft
      (StructuredDatasetTransformer.registerType_overrideCalls_new s ft hft)
  · intro htt
    rw [hoc]
    by_cases hmem : tt ∈ (StructuredDatasetTransformer.registerType s ft).registerTypes
    · rw [StructuredDatasetTransformer.registerType_of_mem _ tt hmem]
      rcases (StructuredDatasetTransformer.registerType_mem_iff s ft tt).mp hmem with rfl | hc
      · exact StructuredDatasetTransformer.registerType_overrideCalls_new s tt htt
      · exact absurd hc htt
    · exact StructuredDatasetTransformer.registerType_overrideCalls_new _ tt hmem
  · intro hft htt
    rw [hrt, hoc, StructuredDatasetTransformer.registerType_of_mem s ft hft,
        StructuredDatasetTransformer.registerType_of_mem s tt htt]
    exact ⟨rfl, rfl⟩
  · intro hnd
    rw [hrt]
    exact StructuredDatasetTransformer.registerType_nodup _ tt
      (StructuredDatasetTransformer.registerType_nodup s ft hnd)
  · intro htrack
    rw [hrt, hoc]
    exact StructuredDatasetTransformer.registerType_overrides_track _ tt
      (StructuredDatasetTransformer.registerType_overrides_track s ft htrack)

/-- Witness for C7: registering a retrieval handler on a fresh state
makes both types seen and routed. -/
theorem c7_witness :
    (TKey.pandasDF ∈ ((StructuredDatasetTransformer.register_handler .pandasDF
        (.fmt .parquet) (.retrieval rhW) sdStateEmpty).2).registerTypes ∧
     TKey.fmt .parquet ∈ ((StructuredDatasetTransformer.register_handler .pandasDF
        (.fmt .parquet) (.retrieval rhW) sdStateEmpty).2).registerTypes) ∧
    TKey.pandasDF ∈ ((StructuredDatasetTransformer.register_handler .pandasDF
        (.fmt .parquet) (.retrieval rhW) sdStateEmpty).2).overrideCalls :=
  ⟨(c7_register_handler_idempotent_routing sdStateEmpty .pandasDF (.fmt .parquet)
      (.retrieval rhW)).1,
   (c7_register_handler_idempotent_routing sdStateEmpty .pandasDF (.fmt .parquet)
      (.retrieval rhW)).2.1 (by simp [sdStateEmpty])⟩

/-- C10: registering an object implementing none of the four handler
capability interfaces raises TypeError, but only after both key types
have been recorded as seen and routed to this transformer; none of the
four handler registries changes, and the seen-type mutation is not
rolled back. -/
theorem c10_register_handler_not_atomic
    (s : StructuredDatasetTransformer.SDState) (ft tt : TKey) :
    (StructuredDatasetTransformer.register_handler ft tt .other s).1 =
      .error .typeError ∧
    ft ∈ ((StructuredDatasetTransformer.register_handler ft tt .other s).2).registerTypes ∧
    tt ∈ ((StructuredDatasetTransformer.register_handler ft tt .other s).2).registerTypes ∧
    (ft ∉ s.registerTypes →
      ft ∈ ((StructuredDatasetTransformer.register_handler ft tt .other s).2).overrideCalls) ∧
    (tt ∉ s.registerTypes →
      tt ∈ ((StructuredDatasetTransformer.register_handler ft tt .other s).2).overrideCalls) ∧
    ((StructuredDatasetTransformer.register_handler ft tt .other s).2).retrieval =
      s.retrieval ∧
    ((StructuredDatasetTransformer.register_handler ft tt .other s).2).persistence =
      s.persistence ∧
    ((StructuredDatasetTransformer.register_handler ft tt .other s).2).encoding =
      s.encoding ∧
    ((StructuredDatasetTransformer.register_handler ft tt .other s).2).decoding =
      s.decoding := by
  have hmem : ∀ u : TKey,
      u ∈ ((StructuredDatasetTransformer.register_handler ft tt .other s).2).registerTypes ↔
        u = tt ∨ u = ft ∨ u ∈ s.registerTypes := by
    intro u
    show u ∈ (StructuredDatasetTransformer.registerType
        (StructuredDatasetTransformer.registerType s ft) tt).registerTypes ↔ _
    rw [StructuredDatasetTransformer.registerType_mem_iff,
        StructuredDatasetTransformer.registerType_mem_iff]
  have hunreg : ∀ u : TKey, u = ft ∨ u = tt → u ∉ s.registerTypes →
      u ∈ ((StructuredDatasetTransformer.register_handler ft tt .other s).2).overrideCalls := by
    intro u hor hu
    show u ∈ (StructuredDatasetTransformer.registerType
        (StructuredDatasetTransformer.registerType s ft) tt).overrideCalls
    rcases hor with rfl | rfl
    · exact StructuredDatasetTransformer.registerType_overrideCalls_mono _ tt u
        (StructuredDatasetTransformer.registerType_overrideCalls_new s u hu)
    · by_cases hmem1 : u ∈ (StructuredDatasetTransformer.registerType s ft).registerTypes
      · rcases (StructuredDatasetTransformer.registerType_mem_iff s ft u).mp hmem1 with hc | hc
        · subst hc
          exact StructuredDatasetTransformer.registerType_overrideCalls_mono _ u u
            (StructuredDatasetTransformer.registerType_overrideCalls_new s u hu)
        · exact absurd hc hu
      · exact StructuredDatasetTransformer.registerType_overrideCalls_new _ u hmem1
  have hreg1 := StructuredDatasetTransformer.registerType_registries s ft
  have hreg2 := StructuredDatasetTransformer.registerType_registries
      (StructuredDatasetTransformer.registerType s ft) tt
  refine ⟨rfl, ?_, ?_, fun hf => hunreg ft (Or.inl rfl) hf,
      fun ht => hunreg tt (Or.inr rfl) ht,
      hreg2.1.trans hreg1.1, hreg2.2.1.trans hreg1.2.1,
      hreg2.2.2.1.trans hreg1.2.2.1, hreg2.2.2.2.trans hreg1.2.2.2⟩
  · rw [hmem ft]; tauto
  · rw [hmem tt]; tauto

/-- Witness for C10: a fresh state, a handler with no capability
interface — the error is raised yet the seen-type mutation persists. -/
theorem c10_witness :
    (StructuredDatasetTransformer.register_handler .pandasDF (.fmt .bigquery)
        .other sdStateEmpty).1 = .error .typeError ∧
    TKey.pandasDF ∈ ((StructuredDatasetTransformer.register_handler .pandasDF
        (.fmt .bigquery) .other sdStateEmpty).2).registerTypes ∧
    TKey.pandasDF ∈ ((StructuredDatasetTransformer.register_handler .pandasDF
        (.fmt .bigquery) .other sdStateEmpty).2).overrideCalls :=
  ⟨(c10_register_handler_not_atomic sdStateEmpty .pandasDF (.fmt .bigquery)).1,
   (c10_register_handler_not_atomic sdStateEmpty .pandasDF (.fmt .bigquery)).2.1,
   (c10_register_handler_not_atomic sdStateEmpty .pandasDF (.fmt .bigquery)).2.2.2.1
     (by simp [sdStateEmpty])⟩

/-! ## C8: structural type inference round trip -/

namespace StructuredDatasetTransformer

/-- The six canonical semantic column types of the claim. -/
def canonical : PyType → Bool
  | .pyInt => true
  | .pyFloat => true
  | .pyStr => true
  | .pyBool => true
  | .pyDatetime => true
  | .pyTimedelta => true
  | _ => false

/-- Each canonical type maps to a simple literal type whose inverse-table
entry is the type itself. -/
theorem canonical_roundtrip (t : PyType) (h : canonical t = true) :
    ∃ lt, _get_dataset_column_literal_type t = .ok lt ∧ guessColumn lt = .ok t := by
  cases t <;>
    simp_all [canonical, _get_dataset_column_literal_type, supportedType, guessColumn]

/-- Inserting a fresh key into the dict appends it. -/
theorem dictInsert_of_not_mem (m : Columns) (k : String) (v : PyType)
    (h : k ∉ m.map Prod.fst) : dictInsert m k v = m ++ [(k, v)] := by
  induction m with
  | nil => rfl
  | cons p rest ih =>
    obtain ⟨k0, v0⟩ := p
    simp only [List.map_cons, List.mem_cons, not_or] at h
    simp only [dictInsert]
    rw [if_neg (fun hk => h.1 hk.symm), ih h.2]
    rfl

/-- Converting canonical columns succeeds, and guessing the result back
appends exactly the original columns to the accumulated dict. -/
theorem guess_roundtrip_aux :
    ∀ (cols : Columns) (acc : Columns),
      (∀ p ∈ cols, canonical p.2 = true) →
      (cols.map Prod.fst).Nodup →
      (∀ k ∈ cols.map Prod.fst, k ∉ acc.map Prod.fst) →
      ∃ L, _get_dataset_type cols = .ok L ∧ guessCols L acc = .ok (acc ++ cols)
  | [], acc, _, _, _ => ⟨[], rfl, by simp [guessCols]⟩
  | (k, t) :: rest, acc, hc, hnd, hdisj => by
    obtain ⟨lt, hlt, hguess⟩ := canonical_roundtrip t (hc (k, t) (by simp))
    have hk_acc : k ∉ acc.map Prod.fst := hdisj k (by simp)
    have hins : dictInsert acc k t = acc ++ [(k, t)] :=
      dictInsert_of_not_mem acc k t hk_acc
    have hnd_cons := hnd
    simp only [List.map_cons, List.nodup_cons] at hnd_cons
    have hdisj2 : ∀ k2 ∈ rest.map Prod.fst, k2 ∉ (dictInsert acc k t).map Prod.fst := by
      intro k2 hk2
      rw [hins]
      simp only [List.map_append, List.mem_append, List.map_cons, List.map_nil,
        List.mem_singleton, not_or]
      exact ⟨hdisj k2 (by simp [hk2]), fun hkk => hnd_cons.1 (hkk ▸ hk2)⟩
    obtain ⟨L, hL, hg⟩ := guess_roundtrip_aux rest (dictInsert acc k t)
        (fun p hp => hc p (by simp [hp])) hnd_cons.2 hdisj2
    refine ⟨(k, lt) :: L, ?_, ?_⟩
    · simp [_get_dataset_type, hlt, hL]
    · rw [hins] at hg
      simp only [guessCols, hguess, hins]
      rw [hg]
      simp

/-- A non-simple column literal type makes the inverse lookup fail. -/
theorem guessColumn_not_simple (lt : LType) (h : lt.isSimple = false) :
    guessColumn lt = .error .valueError := by
  cases lt with
  | simple s => simp [LType.isSimple] at h
  | collection e => rfl
  | mapValue v => rfl

/-- Every simple column literal type has an inverse-table entry. -/
theorem guessColumn_simple (s : SimpleT) : ∃ t, guessColumn (.simple s) = .ok t := by
  cases s <;> exact ⟨_, rfl⟩

/-- Any non-simple column anywhere in the list makes the guess fail. -/
theorem guessCols_error :
    ∀ (sdt : List (String × LType)) (acc : Columns),
      (∃ p ∈ sdt, p.2.isSimple = false) →
      guessCols sdt acc = .error .valueError
  | [], _, h => by simp at h
  | (n, lt) :: rest, acc, h => by
    by_cases hs : lt.isSimple = true
    · obtain ⟨s, rfl⟩ : ∃ s, lt = LType.simple s := by
        cases lt with
        | simple s => exact ⟨s, rfl⟩
        | collection e => simp [LType.isSimple] at hs
        | mapValue v => simp [LType.isSimple] at hs
      obtain ⟨t, ht⟩ := guessColumn_simple s
      have hrest : ∃ p ∈ rest, p.2.isSimple = false := by
        obtain ⟨p, hp, hbad⟩ := h
        rcases List.mem_cons.mp hp with rfl | hp2
        · simp [LType.isSimple] at hbad
        · exact ⟨p, hp2, hbad⟩
      simp [guessCols, ht, guessCols_error rest _ hrest]
    · simp [guessCols,
        guessColumn_not_simple lt (Bool.not_eq_true lt.isSimple ▸ hs)]

end StructuredDatasetTransformer

/-- C8: for every column mapping whose value types are all among the six
canonical semantic types, guessing the native type back from the literal
type of the corresponding StructuredDataset type yields exactly the same
column mapping; and guessing fails for any structured-dataset literal
type containing a column whose literal type is not a simple scalar kind
(e.g. a nested collection type). -/
theorem c8_guess_type_roundtrip :
    (∀ cols : Columns,
      (∀ p ∈ cols, StructuredDatasetTransformer.canonical p.2 = true) →
      (cols.map Prod.fst).Nodup →
      (StructuredDatasetTransformer.get_literal_type cols).bind
        StructuredDatasetTransformer.guess_python_type = .ok cols) ∧
    (∀ sdt : List (String × LType),
      (∃ p ∈ sdt, p.2.isSimple = false) →
      StructuredDatasetTransformer.guess_python_type (.structuredDatasetType sdt) =
        .error .valueError) := by
  constructor
  · intro cols hc hnd
    obtain ⟨L, hL, hg⟩ :=
      StructuredDatasetTransformer.guess_roundtrip_aux cols [] hc hnd (by simp)
    simp only [List.nil_append] at hg
    simp [StructuredDatasetTransformer.get_literal_type,
          StructuredDatasetTransformer.guess_python_type, hL, hg, Except.map, Except.bind]
  · intro sdt h
    simpa [StructuredDatasetTransformer.guess_python_type] using
      StructuredDatasetTransformer.guessCols_error sdt [] h

/-- Witness for C8: a two-column canonical mapping round-trips, and a
collection-typed column is rejected. -/
theorem c8_witness :
    ((StructuredDatasetTransformer.get_literal_type
        [("a", .pyInt), ("b", .pyStr)]).bind
      StructuredDatasetTransformer.guess_python_type =
        .ok [("a", PyType.pyInt), ("b", PyType.pyStr)]) ∧
    (StructuredDatasetTransformer.guess_python_type
        (.structuredDatasetType [("c", .collection (.simple .integer))]) =
      .error .valueError) :=
  ⟨c8_guess_type_roundtrip.1 [("a", .pyInt), ("b", .pyStr)]
      (by decide) (by simp),
   c8_guess_type_roundtrip.2 [("c", .collection (.simple .integer))]
      ⟨("c", .collection (.simple .integer)), by simp, rfl⟩⟩
